import Mathlib

/-!
Formal model of the Getaround price-prediction API
(`src/api/main.py`, artifact produced by `src/ml/model_training.py`).

The embedding is shallow: JSON request bodies are an inductive `Json` type,
pydantic validation of `CarFeatures` is an executable validator collecting
field errors, the pandas DataFrame built by the `/predict` handler is a
columns-plus-rows structure, and the scikit-learn pipeline
(StandardScaler + OneHotEncoder(handle_unknown="ignore") + RandomForest)
is a parametrised pure function over rational numbers (floating point is
modelled by `ℚ`; the claims under study do not depend on rounding).
-/

namespace Getaround

/-- JSON-like values as parsed from a request body. -/
inductive Json where
  | null
  | bool (b : Bool)
  | num (q : ℚ)
  | str (s : String)
  | arr (items : List Json)
  | obj (fields : List (String × Json))

/-- Last-occurrence-wins lookup in a JSON object, matching how Python's
JSON parser builds a dict (later duplicate keys override earlier ones). -/
def objGet (fields : List (String × Json)) (key : String) : Option Json :=
  match fields with
  | [] => none
  | (k, v) :: rest =>
    match objGet rest key with
    | some w => some w
    | none => if k = key then some v else none

/-- Digit value of a character, if it is a decimal digit. -/
def digitVal (c : Char) : Option ℕ :=
  if c.isDigit then some (c.toNat - 48) else none

/-- Parse a nonempty string of decimal digits as a natural number. -/
def parseNatDigits (cs : List Char) : Option ℕ :=
  if cs.isEmpty then none
  else cs.foldlM (fun acc c => (digitVal c).map (fun d => acc * 10 + d)) 0

/-- Split a character list on the decimal-point character. -/
def splitOnDot (cs : List Char) : List (List Char) :=
  match cs with
  | [] => [[]]
  | c :: rest =>
    if c = '.' then [] :: splitOnDot rest
    else
      match splitOnDot rest with
      | h :: t => (c :: h) :: t
      | [] => [[c]]

/-- Parse an unsigned decimal literal such as "7" or "7.5".
Models the finite-decimal fragment of Python float(str) parsing that
pydantic uses for its lax string-to-float coercion. -/
def parseUnsigned (cs : List Char) : Option ℚ :=
  match splitOnDot cs with
  | [intPart] => (parseNatDigits intPart).map (fun n => (n : ℚ))
  | [intPart, fracPart] =>
    match parseNatDigits intPart, parseNatDigits fracPart with
    | some n, some f => some ((n : ℚ) + (f : ℚ) / (10 : ℚ) ^ fracPart.length)
    | _, _ => none
  | _ => none

/-- Parse an optionally signed decimal literal. -/
def parseDecimal (s : String) : Option ℚ :=
  match s.data with
  | '-' :: rest => (parseUnsigned rest).map Neg.neg
  | '+' :: rest => parseUnsigned rest
  | cs => parseUnsigned cs

/-- Pydantic lax coercion into a float field (`mileage: float`):
numbers pass through, numeric strings are parsed, booleans become 0/1.
Anything else is a type mismatch. -/
def coerceFloat : Json → Option ℚ
  | .num q => some q
  | .str s => parseDecimal s
  | .bool b => some (if b then 1 else 0)
  | _ => none

/-- Pydantic lax coercion into a str field: only JSON strings are accepted. -/
def coerceStr : Json → Option String
  | .str s => some s
  | _ => none

/-- Pydantic lax coercion into a bool field: booleans pass through,
0/1 numbers and the usual truthy or falsy strings are coerced. -/
def coerceBool : Json → Option Bool
  | .bool b => some b
  | .num q => if q = 0 then some false else if q = 1 then some true else none
  | .str s =>
    let t := s.toLower
    if t = "true" ∨ t = "t" ∨ t = "yes" ∨ t = "y" ∨ t = "on" ∨ t = "1" then some true
    else if t = "false" ∨ t = "f" ∨ t = "no" ∨ t = "n" ∨ t = "off" ∨ t = "0" then some false
    else none
  | _ => none

/-- Kind of a per-field validation failure reported by pydantic. -/
inductive FieldErrorKind where
  | missing
  | typeMismatch
  | notObject
deriving Repr, DecidableEq

/-- One pydantic validation error, naming the offending field. -/
structure FieldError where
  field : String
  kind : FieldErrorKind
deriving Repr, DecidableEq

/-- Validate one field of a record: missing key yields a MissingField
error naming the key, an uncoercible value a TypeMismatch naming the key. -/
def validateField {α : Type} (coerce : Json → Option α)
    (fs : List (String × Json)) (key : String) : Except FieldError α :=
  match objGet fs key with
  | none => .error ⟨key, .missing⟩
  | some v =>
    match coerce v with
    | some a => .ok a
    | none => .error ⟨key, .typeMismatch⟩

def validateFloatField (fs : List (String × Json)) (key : String) : Except FieldError ℚ :=
  validateField coerceFloat fs key

def validateStrField (fs : List (String × Json)) (key : String) : Except FieldError String :=
  validateField coerceStr fs key

def validateBoolField (fs : List (String × Json)) (key : String) : Except FieldError Bool :=
  validateField coerceBool fs key

/-- The `CarFeatures` pydantic model of `src/api/main.py` (13 required fields,
in declaration order). Floats are modelled by `ℚ`. -/
structure CarFeatures where
  mileage : ℚ
  engine_power : ℚ
  model_key : String
  fuel : String
  paint_color : String
  car_type : String
  private_parking_available : Bool
  has_gps : Bool
  has_air_conditioning : Bool
  automatic_car : Bool
  has_getaround_connect : Bool
  has_speed_regulator : Bool
  winter_tires : Bool
deriving Repr, DecidableEq

/-- The 13 required field names of `CarFeatures`, in declaration order. -/
def requiredFieldNames : List String :=
  ["mileage", "engine_power", "model_key", "fuel", "paint_color", "car_type",
   "private_parking_available", "has_gps", "has_air_conditioning", "automatic_car",
   "has_getaround_connect", "has_speed_regulator", "winter_tires"]

/-- The error of a field validation as a zero- or one-element list. -/
def errList {α : Type} : Except FieldError α → List FieldError
  | .ok _ => []
  | .error e => [e]

/-- All field errors of one record, in field declaration order.
Pydantic validates every field independently and collects all errors. -/
def recordErrors (fs : List (String × Json)) : List FieldError :=
  errList (validateFloatField fs "mileage") ++
  errList (validateFloatField fs "engine_power") ++
  errList (validateStrField fs "model_key") ++
  errList (validateStrField fs "fuel") ++
  errList (validateStrField fs "paint_color") ++
  errList (validateStrField fs "car_type") ++
  errList (validateBoolField fs "private_parking_available") ++
  errList (validateBoolField fs "has_gps") ++
  errList (validateBoolField fs "has_air_conditioning") ++
  errList (validateBoolField fs "automatic_car") ++
  errList (validateBoolField fs "has_getaround_connect") ++
  errList (validateBoolField fs "has_speed_regulator") ++
  errList (validateBoolField fs "winter_tires")

/-- Field value extraction used when a record has no errors
(every component call is then known to be `.ok`, so the defaults are dead). -/
def buildRecord (fs : List (String × Json)) : CarFeatures where
  mileage := (validateFloatField fs "mileage").toOption.getD 0
  engine_power := (validateFloatField fs "engine_power").toOption.getD 0
  model_key := (validateStrField fs "model_key").toOption.getD ""
  fuel := (validateStrField fs "fuel").toOption.getD ""
  paint_color := (validateStrField fs "paint_color").toOption.getD ""
  car_type := (validateStrField fs "car_type").toOption.getD ""
  private_parking_available := (validateBoolField fs "private_parking_available").toOption.getD false
  has_gps := (validateBoolField fs "has_gps").toOption.getD false
  has_air_conditioning := (validateBoolField fs "has_air_conditioning").toOption.getD false
  automatic_car := (validateBoolField fs "automatic_car").toOption.getD false
  has_getaround_connect := (validateBoolField fs "has_getaround_connect").toOption.getD false
  has_speed_regulator := (validateBoolField fs "has_speed_regulator").toOption.getD false
  winter_tires := (validateBoolField fs "winter_tires").toOption.getD false

/-- Pydantic validation of one record against `CarFeatures`: a non-object is
rejected, an object is accepted exactly when every one of the 13 required
fields is present and coercible, and otherwise all field errors are reported.
Extra keys are ignored (pydantic default). -/
def validateRecord (j : Json) : Except (List FieldError) CarFeatures :=
  match j with
  | .obj fs => if recordErrors fs = [] then .ok (buildRecord fs) else .error (recordErrors fs)
  | _ => .error [⟨"", .notObject⟩]

/-- Pydantic validation of `input: List[CarFeatures]`: every element is
validated and all errors across elements are collected; the request is
accepted only when every element validates. -/
def validateRecords : List Json → Except (List FieldError) (List CarFeatures)
  | [] => .ok []
  | j :: rest =>
    match validateRecord j, validateRecords rest with
    | .ok c, .ok cs => .ok (c :: cs)
    | .ok _, .error es => .error es
    | .error es, .ok _ => .error es
    | .error es, .error es2 => .error (es ++ es2)

/-- Pydantic validation of the `InputData` request body of `src/api/main.py`:
an object with a required `input` key holding a list of records. -/
def validateInputData (j : Json) : Except (List FieldError) (List CarFeatures) :=
  match j with
  | .obj fs =>
    match objGet fs "input" with
    | none => .error [⟨"input", .missing⟩]
    | some (.arr items) => validateRecords items
    | some _ => .error [⟨"input", .typeMismatch⟩]
  | _ => .error [⟨"", .notObject⟩]

/-- A cell of a pandas DataFrame built from `CarFeatures` dicts:
float, string or boolean. -/
inductive CellValue where
  | float (q : ℚ)
  | str (s : String)
  | bool (b : Bool)
deriving Repr, DecidableEq

/-- The primitive type of a column. -/
inductive ColType where
  | float
  | str
  | bool
deriving Repr, DecidableEq

/-- The primitive type of a cell. -/
def cellType : CellValue → ColType
  | .float _ => .float
  | .str _ => .str
  | .bool _ => .bool

/-- The dict produced by `item.dict()` for one validated record
(pydantic serialises fields in declaration order). -/
def carFeaturesDict (c : CarFeatures) : List (String × CellValue) :=
  [("mileage", .float c.mileage),
   ("engine_power", .float c.engine_power),
   ("model_key", .str c.model_key),
   ("fuel", .str c.fuel),
   ("paint_color", .str c.paint_color),
   ("car_type", .str c.car_type),
   ("private_parking_available", .bool c.private_parking_available),
   ("has_gps", .bool c.has_gps),
   ("has_air_conditioning", .bool c.has_air_conditioning),
   ("automatic_car", .bool c.automatic_car),
   ("has_getaround_connect", .bool c.has_getaround_connect),
   ("has_speed_regulator", .bool c.has_speed_regulator),
   ("winter_tires", .bool c.winter_tires)]

/-- A pandas DataFrame: a list of column names and one key-value row per
record. A cell is read by key lookup; a key absent from a row is a missing
cell. -/
structure DataFrame where
  columns : List String
  rows : List (List (String × CellValue))
deriving Repr, DecidableEq

/-- Column names of `pd.DataFrame(list_of_dicts)`: union of the dict keys
in order of first appearance. An empty list of dicts gives no columns. -/
def dictKeysUnion (records : List (List (String × CellValue))) : List String :=
  records.foldl (fun acc rec => acc ++ (rec.map Prod.fst).filter (fun k => ¬ k ∈ acc)) []

/-- `pd.DataFrame(input_dicts)` as called by the `/predict` handler. -/
def pdDataFrame (records : List (List (String × CellValue))) : DataFrame :=
  ⟨dictKeysUnion records, records⟩

/-- First-match cell lookup in a row (dict keys are unique). -/
def rowGet (row : List (String × CellValue)) (key : String) : Option CellValue :=
  match row with
  | [] => none
  | (k, v) :: rest => if k = key then some v else rowGet rest key

/-- Fitted StandardScaler parameters for one numeric column. -/
structure ScalerParams where
  mean : ℚ
  scale : ℚ
deriving Repr, DecidableEq

/-- StandardScaler.transform on one value: subtract the fitted mean,
divide by the fitted scale. -/
def standardize (p : ScalerParams) (x : ℚ) : ℚ := (x - p.mean) / p.scale

/-- OneHotEncoder(handle_unknown="ignore") on one categorical value: an
indicator per fitted category; a value outside the fitted vocabulary gives
the all-zero vector instead of raising. -/
def oneHot (categories : List String) (v : String) : List ℚ :=
  categories.map (fun c => if c = v then 1 else 0)

/-- A fitted regression tree of the random forest: internal nodes compare
one feature against a threshold, leaves carry a prediction. -/
inductive DecisionTree where
  | leaf (value : ℚ)
  | node (feature : ℕ) (threshold : ℚ) (left : DecisionTree) (right : DecisionTree)
deriving Repr, DecidableEq

/-- Evaluate one fitted tree on an encoded feature vector. -/
def DecisionTree.eval (t : DecisionTree) (x : List ℚ) : ℚ :=
  match t with
  | .leaf v => v
  | .node i th l r => if x.getD i 0 ≤ th then l.eval x else r.eval x

/-- RandomForestRegressor.predict on one encoded row: the mean of the
fitted trees' outputs. -/
def forestPredict (trees : List DecisionTree) (x : List ℚ) : ℚ :=
  (trees.map (fun t => t.eval x)).sum / trees.length

/-- The fitted state of the serialized pipeline of `src/ml/model_training.py`:
scaler parameters for the two numeric columns, the fitted vocabulary of each
of the four one-hot-encoded categorical columns, and the fitted forest. -/
structure ModelParams where
  mileageScaler : ScalerParams
  enginePowerScaler : ScalerParams
  modelKeyCategories : List String
  fuelCategories : List String
  paintColorCategories : List String
  carTypeCategories : List String
  forest : List DecisionTree
deriving Repr, DecidableEq

/-- The 13 feature columns of the training table `X`.
Modelled from the spec: the training CSV `data/get_around_pricing_project.csv`
is not in src, so its column order is unknown; per spec section 4.2 the
training-time table uses the same column identifiers and order as the
Feature Schema, which is taken here as authoritative for the order. -/
def trainingColumns : List String := requiredFieldNames

/-- Per-column primitive type of the training table, from the feature groups
of `src/ml/model_training.py` (mileage and engine_power cast to float,
the four categorical columns strings, the remaining columns booleans). -/
def trainingColumnType (c : String) : ColType :=
  if c = "mileage" ∨ c = "engine_power" then .float
  else if c = "model_key" ∨ c = "fuel" ∨ c = "paint_color" ∨ c = "car_type" then .str
  else .bool

/-- Read a cell that the fitted StandardScaler consumes (numeric dtype). -/
def cellFloat : Option CellValue → Option ℚ
  | some (.float q) => some q
  | _ => none

/-- Read a cell that the fitted OneHotEncoder consumes (string category). -/
def cellStr : Option CellValue → Option String
  | some (.str s) => some s
  | _ => none

/-- Read a passthrough cell as the numeric value the regressor sees
(booleans become 0/1). -/
def cellNum : Option CellValue → Option ℚ
  | some (.bool b) => some (if b then 1 else 0)
  | some (.float q) => some q
  | _ => none

/-- ColumnTransformer.transform on one row: scaled numeric block, then the
four one-hot blocks, then the passthrough boolean columns in original order.
`none` models a dtype failure (never reached on validated input). -/
def rowFeatures (p : ModelParams) (row : List (String × CellValue)) : Option (List ℚ) := do
  let m ← cellFloat (rowGet row "mileage")
  let ep ← cellFloat (rowGet row "engine_power")
  let mk ← cellStr (rowGet row "model_key")
  let fu ← cellStr (rowGet row "fuel")
  let pc ← cellStr (rowGet row "paint_color")
  let ct ← cellStr (rowGet row "car_type")
  let b1 ← cellNum (rowGet row "private_parking_available")
  let b2 ← cellNum (rowGet row "has_gps")
  let b3 ← cellNum (rowGet row "has_air_conditioning")
  let b4 ← cellNum (rowGet row "automatic_car")
  let b5 ← cellNum (rowGet row "has_getaround_connect")
  let b6 ← cellNum (rowGet row "has_speed_regulator")
  let b7 ← cellNum (rowGet row "winter_tires")
  pure ([standardize p.mileageScaler m, standardize p.enginePowerScaler ep]
    ++ oneHot p.modelKeyCategories mk ++ oneHot p.fuelCategories fu
    ++ oneHot p.paintColorCategories pc ++ oneHot p.carTypeCategories ct
    ++ [b1, b2, b3, b4, b5, b6, b7])

/-- Transform every row, failing if any row fails. -/
def mapRows {α β : Type} (f : α → Option β) : List α → Option (List β)
  | [] => some []
  | a :: as =>
    match f a, mapRows f as with
    | some b, some bs => some (b :: bs)
    | _, _ => none

/-- Failure modes of `model.predict(df)`. -/
inductive ScoringError where
  | missingColumns
  | badCell
deriving Repr, DecidableEq

/-- `model.predict(df)` for the loaded pipeline: the ColumnTransformer
raises when a fitted input column is absent from the DataFrame (as happens
for the column-less empty frame); otherwise each row is encoded and scored
by the forest, in row order. -/
def pipelinePredict (p : ModelParams) (df : DataFrame) : Except ScoringError (List ℚ) :=
  if trainingColumns.all (fun c => df.columns.contains c) then
    match mapRows (rowFeatures p) df.rows with
    | some xs => .ok (xs.map (forestPredict p.forest))
    | none => .error .badCell
  else .error .missingColumns

/-- Encode a bool the way the regressor sees a passthrough boolean column. -/
def boolToRat (b : Bool) : ℚ := if b then 1 else 0

/-- The encoded feature vector of one validated record: what
`rowFeatures` yields on the record's dict. -/
def featureVec (p : ModelParams) (c : CarFeatures) : List ℚ :=
  [standardize p.mileageScaler c.mileage, standardize p.enginePowerScaler c.engine_power]
  ++ oneHot p.modelKeyCategories c.model_key ++ oneHot p.fuelCategories c.fuel
  ++ oneHot p.paintColorCategories c.paint_color ++ oneHot p.carTypeCategories c.car_type
  ++ [boolToRat c.private_parking_available, boolToRat c.has_gps,
      boolToRat c.has_air_conditioning, boolToRat c.automatic_car,
      boolToRat c.has_getaround_connect, boolToRat c.has_speed_regulator,
      boolToRat c.winter_tires]

/-- The pipeline's end-to-end output for one validated record. -/
def modelOutput (p : ModelParams) (c : CarFeatures) : ℚ :=
  forestPredict p.forest (featureVec p c)

/-- The HTTP outcome of `POST /predict` under FastAPI: 200 with the
prediction list, 422 with pydantic's field errors, or 500 when
`model.predict` raises (unhandled exception in the route). -/
inductive HttpResponse where
  | ok (prediction : List ℚ)
  | unprocessable (errors : List FieldError)
  | serverError
deriving Repr, DecidableEq

/-- The `/predict` route body, parametrised by the scoring function so that
non-invocation of the model on invalid requests is expressible: FastAPI
validates the body first; only on success are the dicts assembled into a
DataFrame and scored. -/
def handlePredictWith (score : DataFrame → Except ScoringError (List ℚ)) (body : Json) :
    HttpResponse :=
  match validateInputData body with
  | .error es => .unprocessable es
  | .ok cars =>
    match score (pdDataFrame (cars.map carFeaturesDict)) with
    | .ok preds => .ok preds
    | .error _ => .serverError

/-- The `/predict` route of `src/api/main.py` against the loaded model. -/
def handlePredict (p : ModelParams) (body : Json) : HttpResponse :=
  handlePredictWith (pipelinePredict p) body

/-- The process state of the service: the model loaded at startup
(`model = joblib.load(...)`, module level, executed once). -/
structure ServiceState where
  model : ModelParams
deriving Repr, DecidableEq

/-- Process start: load the artifact once. -/
def loadService (artifact : ModelParams) : ServiceState := ⟨artifact⟩

/-- Handle one request: the route reads the shared model and never assigns
to it, so the state after the request is the state before it. -/
def step (s : ServiceState) (body : Json) : HttpResponse × ServiceState :=
  (handlePredict s.model body, s)

/-- Handle a sequence of requests, threading the process state. -/
def runRequests (s : ServiceState) : List Json → List HttpResponse × ServiceState
  | [] => ([], s)
  | r :: rs =>
    let out := step s r
    let rest := runRequests out.2 rs
    (out.1 :: rest.1, rest.2)

/-- A process lifetime: load the artifact once at start, then serve. -/
def serveAll (artifact : ModelParams) (requests : List Json) :
    List HttpResponse × ServiceState :=
  runRequests (loadService artifact) requests

/-- The request body `{"input": items}`. -/
def mkRequest (items : List Json) : Json := .obj [("input", .arr items)]

/-- A record with the 13 required fields restricted to the schema
(extra, unrecognised keys dropped); other JSON values unchanged. -/
def stripExtras : Json → Json
  | .obj fs => .obj (fs.filter (fun p => p.1 ∈ requiredFieldNames))
  | j => j

/-- A concrete fitted model used to exhibit behaviours at explicit inputs. -/
def p0 : ModelParams :=
  { mileageScaler := ⟨0, 1⟩, enginePowerScaler := ⟨0, 1⟩,
    modelKeyCategories := ["Citroën", "Renault"],
    fuelCategories := ["diesel", "petrol"],
    paintColorCategories := ["black"],
    carTypeCategories := ["sedan"],
    forest := [.leaf 100, .node 0 (1 / 2) (.leaf 80) (.leaf 120)] }

/-- A concrete fully-populated record, as JSON object fields. -/
def rec0Fields : List (String × Json) :=
  [("mileage", .num 7), ("engine_power", .num 2), ("model_key", .str "Citroën"),
   ("fuel", .str "diesel"), ("paint_color", .str "black"), ("car_type", .str "sedan"),
   ("private_parking_available", .bool true), ("has_gps", .bool true),
   ("has_air_conditioning", .bool false), ("automatic_car", .bool false),
   ("has_getaround_connect", .bool true), ("has_speed_regulator", .bool false),
   ("winter_tires", .bool true)]

/-- The validated value of `rec0Fields`. -/
def car0 : CarFeatures :=
  ⟨7, 2, "Citroën", "diesel", "black", "sedan", true, true, false, false, true, false, true⟩

/-- `rec0Fields` with `mileage` supplied as the JSON string "7". -/
def rec7Fields : List (String × Json) :=
  [("mileage", .str "7"), ("engine_power", .num 2), ("model_key", .str "Citroën"),
   ("fuel", .str "diesel"), ("paint_color", .str "black"), ("car_type", .str "sedan"),
   ("private_parking_available", .bool true), ("has_gps", .bool true),
   ("has_air_conditioning", .bool false), ("automatic_car", .bool false),
   ("has_getaround_connect", .bool true), ("has_speed_regulator", .bool false),
   ("winter_tires", .bool true)]

/-- A concrete record whose `model_key` value is outside `p0`'s fitted
vocabulary. -/
def recUnknownFields : List (String × Json) :=
  [("mileage", .num 7), ("engine_power", .num 2), ("model_key", .str "UnknownBrandXYZ"),
   ("fuel", .str "diesel"), ("paint_color", .str "black"), ("car_type", .str "sedan"),
   ("private_parking_available", .bool true), ("has_gps", .bool true),
   ("has_air_conditioning", .bool false), ("automatic_car", .bool false),
   ("has_getaround_connect", .bool true), ("has_speed_regulator", .bool false),
   ("winter_tires", .bool true)]

/-- The validated value of `recUnknownFields`. -/
def carUnknown : CarFeatures :=
  ⟨7, 2, "UnknownBrandXYZ", "diesel", "black", "sedan", true, true, false, false, true,
   false, true⟩

/-! Helper lemmas. -/

theorem rowFeatures_carFeaturesDict (p : ModelParams) (c : CarFeatures) :
    rowFeatures p (carFeaturesDict c) = some (featureVec p c) := rfl

theorem mapRows_carFeaturesDict (p : ModelParams) (cars : List CarFeatures) :
    mapRows (rowFeatures p) (cars.map carFeaturesDict) = some (cars.map (featureVec p)) := by
  induction cars with
  | nil => rfl
  | cons c cs ih => simp [mapRows, rowFeatures_carFeaturesDict, ih]

theorem dictKeysUnion_step (cs : List (List (String × CellValue)))
    (h : ∀ r ∈ cs, r.map Prod.fst = requiredFieldNames) :
    cs.foldl (fun acc rec => acc ++ (rec.map Prod.fst).filter (fun k => ¬ k ∈ acc))
      requiredFieldNames = requiredFieldNames := by
  induction cs with
  | nil => rfl
  | cons r rs ih =>
    have hr : r.map Prod.fst = requiredFieldNames := h r (List.mem_cons_self r rs)
    have hfix : requiredFieldNames ++
        (r.map Prod.fst).filter (fun k => ¬ k ∈ requiredFieldNames) = requiredFieldNames := by
      rw [hr]; decide
    simp only [List.foldl_cons, hfix]
    exact ih (fun x hx => h x (List.mem_cons_of_mem r hx))

theorem dictKeysUnion_dicts (cars : List CarFeatures) (hne : cars ≠ []) :
    dictKeysUnion (cars.map carFeaturesDict) = requiredFieldNames := by
  obtain ⟨c, cs, rfl⟩ := List.exists_cons_of_ne_nil hne
  show ((carFeaturesDict c :: cs.map carFeaturesDict).foldl _ []) = _
  rw [List.foldl_cons]
  have h0 : ([] : List String) ++
      ((carFeaturesDict c).map Prod.fst).filter (fun k => ¬ k ∈ ([] : List String)) =
      requiredFieldNames := rfl
  rw [h0]
  exact dictKeysUnion_step _ (by intro r hr; obtain ⟨d, _, rfl⟩ := List.mem_map.mp hr; rfl)

theorem pipelinePredict_dicts (p : ModelParams) (cars : List CarFeatures) (hne : cars ≠ []) :
    pipelinePredict p (pdDataFrame (cars.map carFeaturesDict)) =
      .ok (cars.map (modelOutput p)) := by
  have hcols : (pdDataFrame (cars.map carFeaturesDict)).columns = requiredFieldNames :=
    dictKeysUnion_dicts cars hne
  have hcheck : trainingColumns.all
      (fun c => (pdDataFrame (cars.map carFeaturesDict)).columns.contains c) = true := by
    rw [hcols]; decide
  have hrows : (pdDataFrame (cars.map carFeaturesDict)).rows = cars.map carFeaturesDict := rfl
  rw [pipelinePredict, if_pos hcheck, hrows, mapRows_carFeaturesDict]
  simp [List.map_map, modelOutput, Function.comp]

theorem validateRecords_ok_length (items : List Json) (cars : List CarFeatures)
    (h : validateRecords items = .ok cars) : cars.length = items.length := by
  induction items generalizing cars with
  | nil => cases h; rfl
  | cons j rest ih =>
    rw [validateRecords] at h
    cases hj : validateRecord j with
    | ok c =>
      cases hrest : validateRecords rest with
      | ok cs => rw [hj, hrest] at h; cases h; simp [ih cs hrest]
      | error es => rw [hj, hrest] at h; cases h
    | error es =>
      cases hrest : validateRecords rest with
      | ok cs => rw [hj, hrest] at h; cases h
      | error es2 => rw [hj, hrest] at h; cases h

theorem validateRecords_ok_get (items : List Json) (cars : List CarFeatures)
    (h : validateRecords items = .ok cars) (i : ℕ) :
    (cars.get? i).map Except.ok = (items.get? i).map validateRecord := by
  induction items generalizing cars i with
  | nil => cases h; rfl
  | cons j rest ih =>
    rw [validateRecords] at h
    cases hj : validateRecord j with
    | ok c =>
      cases hrest : validateRecords rest with
      | ok cs =>
        rw [hj, hrest] at h; cases h
        cases i with
        | zero => simp [hj]
        | succ n => simpa using ih cs hrest n
      | error es => rw [hj, hrest] at h; cases h
    | error es =>
      cases hrest : validateRecords rest with
      | ok cs => rw [hj, hrest] at h; cases h
      | error es2 => rw [hj, hrest] at h; cases h

theorem validateField_missing {α : Type} (coerce : Json → Option α)
    (fs : List (String × Json)) (key : String) (h : objGet fs key = none) :
    validateField coerce fs key = .error ⟨key, .missing⟩ := by
  simp [validateField, h]

theorem missing_mem_recordErrors (fs : List (String × Json)) (key : String)
    (hkey : key ∈ requiredFieldNames) (h : objGet fs key = none) :
    FieldError.mk key .missing ∈ recordErrors fs := by
  have hfl : ∀ k, objGet fs k = none → errList (validateFloatField fs k) = [⟨k, .missing⟩] := by
    intro k hk; rw [validateFloatField, validateField_missing _ _ _ hk]; rfl
  have hst : ∀ k, objGet fs k = none → errList (validateStrField fs k) = [⟨k, .missing⟩] := by
    intro k hk; rw [validateStrField, validateField_missing _ _ _ hk]; rfl
  have hbo : ∀ k, objGet fs k = none → errList (validateBoolField fs k) = [⟨k, .missing⟩] := by
    intro k hk; rw [validateBoolField, validateField_missing _ _ _ hk]; rfl
  rw [recordErrors]
  simp only [requiredFieldNames, List.mem_cons, List.not_mem_nil, or_false] at hkey
  rcases hkey with rfl | rfl | rfl | rfl | rfl | rfl | rfl | rfl | rfl | rfl | rfl | rfl | rfl <;>
    simp [hfl _ h, hst _ h, hbo _ h]

theorem validateRecord_missing (fs : List (String × Json)) (key : String)
    (hkey : key ∈ requiredFieldNames) (h : objGet fs key = none) :
    validateRecord (.obj fs) = .error (recordErrors fs) ∧
      FieldError.mk key .missing ∈ recordErrors fs := by
  have hmem := missing_mem_recordErrors fs key hkey h
  have hne : recordErrors fs ≠ [] := List.ne_nil_of_mem hmem
  exact ⟨by rw [validateRecord, if_neg hne], hmem⟩

theorem validateRecords_error_of_mem (items : List Json) (j : Json) (hj : j ∈ items)
    (es : List FieldError) (hval : validateRecord j = .error es) :
    ∃ E, validateRecords items = .error E ∧ ∀ e ∈ es, e ∈ E := by
  induction items with
  | nil => cases hj
  | cons k rest ih =>
    rcases List.mem_cons.mp hj with rfl | hmem
    · rw [validateRecords, hval]
      cases hrest : validateRecords rest with
      | ok cs => exact ⟨es, rfl, fun e he => he⟩
      | error es2 => exact ⟨es ++ es2, rfl, fun e he => List.mem_append_left _ he⟩
    · obtain ⟨E, hE, hsub⟩ := ih hmem
      rw [validateRecords, hE]
      cases hk : validateRecord k with
      | ok c => exact ⟨E, rfl, hsub⟩
      | error es2 => exact ⟨es2 ++ E, rfl, fun e he => List.mem_append_right _ (hsub e he)⟩

theorem objGet_filter (fs : List (String × Json)) (key : String)
    (hkey : key ∈ requiredFieldNames) :
    objGet (fs.filter (fun p => p.1 ∈ requiredFieldNames)) key = objGet fs key := by
  induction fs with
  | nil => rfl
  | cons kv rest ih =>
    obtain ⟨k, v⟩ := kv
    by_cases hk : k ∈ requiredFieldNames
    · rw [List.filter_cons_of_pos (by simpa using hk)]
      rw [objGet, objGet, ih]
    · have hne : k ≠ key := by rintro rfl; exact hk hkey
      rw [List.filter_cons_of_neg (by simpa using hk)]
      rw [ih, objGet]
      cases hrest : objGet rest key with
      | some w => rfl
      | none => simp [hne]

theorem validateField_filter {α : Type} (coerce : Json → Option α)
    (fs : List (String × Json)) (key : String) (hkey : key ∈ requiredFieldNames) :
    validateField coerce (fs.filter (fun p => p.1 ∈ requiredFieldNames)) key =
      validateField coerce fs key := by
  rw [validateField, validateField, objGet_filter fs key hkey]

theorem recordErrors_filter (fs : List (String × Json)) :
    recordErrors (fs.filter (fun p => p.1 ∈ requiredFieldNames)) = recordErrors fs := by
  simp only [recordErrors, validateFloatField, validateStrField, validateBoolField, validateField]
  rw [objGet_filter fs "mileage" (by decide), objGet_filter fs "engine_power" (by decide),
    objGet_filter fs "model_key" (by decide), objGet_filter fs "fuel" (by decide),
    objGet_filter fs "paint_color" (by decide), objGet_filter fs "car_type" (by decide),
    objGet_filter fs "private_parking_available" (by decide),
    objGet_filter fs "has_gps" (by decide),
    objGet_filter fs "has_air_conditioning" (by decide),
    objGet_filter fs "automatic_car" (by decide),
    objGet_filter fs "has_getaround_connect" (by decide),
    objGet_filter fs "has_speed_regulator" (by decide),
    objGet_filter fs "winter_tires" (by decide)]

theorem buildRecord_filter (fs : List (String × Json)) :
    buildRecord (fs.filter (fun p => p.1 ∈ requiredFieldNames)) = buildRecord fs := by
  simp only [buildRecord, validateFloatField, validateStrField, validateBoolField, validateField]
  rw [objGet_filter fs "mileage" (by decide), objGet_filter fs "engine_power" (by decide),
    objGet_filter fs "model_key" (by decide), objGet_filter fs "fuel" (by decide),
    objGet_filter fs "paint_color" (by decide), objGet_filter fs "car_type" (by decide),
    objGet_filter fs "private_parking_available" (by decide),
    objGet_filter fs "has_gps" (by decide),
    objGet_filter fs "has_air_conditioning" (by decide),
    objGet_filter fs "automatic_car" (by decide),
    objGet_filter fs "has_getaround_connect" (by decide),
    objGet_filter fs "has_speed_regulator" (by decide),
    objGet_filter fs "winter_tires" (by decide)]

theorem validateRecord_stripExtras (j : Json) :
    validateRecord (stripExtras j) = validateRecord j := by
  cases j with
  | obj fs =>
    rw [stripExtras]
    rw [validateRecord, validateRecord, recordErrors_filter, buildRecord_filter]
  | null => rfl
  | bool b => rfl
  | num q => rfl
  | str s => rfl
  | arr items => rfl

theorem validateRecords_stripExtras (items : List Json) :
    validateRecords (items.map stripExtras) = validateRecords items := by
  induction items with
  | nil => rfl
  | cons j rest ih =>
    rw [List.map_cons, validateRecords, validateRecords, validateRecord_stripExtras, ih]

theorem oneHot_not_mem (cats : List String) (v : String) (h : v ∉ cats) :
    oneHot cats v = List.replicate cats.length 0 := by
  induction cats with
  | nil => rfl
  | cons a rest ih =>
    have hav : ¬ a = v := by rintro rfl; exact h (List.mem_cons_self a rest)
    have hrest : v ∉ rest := fun hm => h (List.mem_cons_of_mem _ hm)
    simp only [oneHot] at ih
    simp [oneHot, List.replicate_succ, hav, ih hrest]

theorem validateInputData_mkRequest (items : List Json) :
    validateInputData (mkRequest items) = validateRecords items := rfl

/-! The claims. -/

/-- C1: for every valid request with N ≥ 1 records, `/predict` answers
HTTP 200 with a `prediction` list of exactly N numbers, the i-th being the
model's output for the i-th input record (order preserved, positional
pairing only). -/
theorem predict_batch_order_preserved (p : ModelParams)
    (bodyFields : List (String × Json)) (items : List Json) (cars : List CarFeatures)
    (hin : objGet bodyFields "input" = some (.arr items))
    (hval : validateInputData (.obj bodyFields) = .ok cars)
    (hne : items ≠ []) :
    handlePredict p (.obj bodyFields) = .ok (cars.map (modelOutput p)) ∧
    (cars.map (modelOutput p)).length = items.length ∧
    (∀ i : ℕ, (cars.get? i).map Except.ok = (items.get? i).map validateRecord) := by
  have hrecs : validateRecords items = .ok cars := by
    simpa [validateInputData, hin] using hval
  have hlen : cars.length = items.length := validateRecords_ok_length items cars hrecs
  have hcne : cars ≠ [] := by
    intro hnil
    exact hne (List.eq_nil_of_length_eq_zero (by rw [← hlen, hnil]; rfl))
  refine ⟨?_, by simpa using hlen, validateRecords_ok_get items cars hrecs⟩
  simp only [handlePredict, handlePredictWith, hval]
  rw [pipelinePredict_dicts p cars hcne]

theorem predict_batch_order_preserved_witness :
    handlePredict p0 (.obj [("input", .arr [.obj rec0Fields])]) =
      .ok ([car0].map (modelOutput p0)) ∧
    ([car0].map (modelOutput p0)).length = [Json.obj rec0Fields].length ∧
    (∀ i : ℕ, (([car0] : List CarFeatures).get? i).map Except.ok =
      ([Json.obj rec0Fields].get? i).map validateRecord) :=
  predict_batch_order_preserved p0 [("input", .arr [.obj rec0Fields])]
    [.obj rec0Fields] [car0] rfl rfl (List.cons_ne_nil _ _)

/-- C2: a request in which a record omits any one of the 13 required fields
is rejected with a client-side validation error naming that field, and the
model's scoring function is never invoked (the response is the same under
every scoring function). -/
theorem missing_field_rejected_unscored (key : String) (hkey : key ∈ requiredFieldNames)
    (bodyFields : List (String × Json)) (items : List Json)
    (recFields : List (String × Json))
    (hin : objGet bodyFields "input" = some (.arr items))
    (hmem : Json.obj recFields ∈ items)
    (hmiss : objGet recFields key = none) :
    ∃ E, (∀ score, handlePredictWith score (.obj bodyFields) = .unprocessable E) ∧
      FieldError.mk key .missing ∈ E := by
  obtain ⟨hrec, hmem2⟩ := validateRecord_missing recFields key hkey hmiss
  obtain ⟨E, hE, hsub⟩ := validateRecords_error_of_mem items _ hmem _ hrec
  refine ⟨E, ?_, hsub _ hmem2⟩
  intro score
  simp [handlePredictWith, validateInputData, hin, hE]

theorem missing_field_rejected_unscored_witness :
    ∃ E, (∀ score, handlePredictWith score
        (.obj [("input", .arr [.obj (rec0Fields.drop 1)])]) = .unprocessable E) ∧
      FieldError.mk "mileage" .missing ∈ E :=
  missing_field_rejected_unscored "mileage" (by decide)
    [("input", .arr [.obj (rec0Fields.drop 1)])] [.obj (rec0Fields.drop 1)]
    (rec0Fields.drop 1) rfl (List.mem_cons_self _ _) rfl

/-- C3: a valid request whose categorical value was never seen in training
still gets HTTP 200 with a numeric prediction for every record: the encoder
maps an unknown category to the all-zero indicator block instead of
raising, so the error branch is unreachable on this path. -/
theorem unknown_category_tolerated (p : ModelParams) (body : Json)
    (cars : List CarFeatures) (hval : validateInputData body = .ok cars)
    (hne : cars ≠ []) (c : CarFeatures) (_hc : c ∈ cars)
    (hunk : c.model_key ∉ p.modelKeyCategories) :
    handlePredict p body = .ok (cars.map (modelOutput p)) ∧
    oneHot p.modelKeyCategories c.model_key =
      List.replicate p.modelKeyCategories.length 0 ∧
    (∀ cats v, v ∉ cats → oneHot cats v = List.replicate cats.length 0) := by
  refine ⟨?_, oneHot_not_mem _ _ hunk, oneHot_not_mem⟩
  simp only [handlePredict, handlePredictWith, hval]
  rw [pipelinePredict_dicts p cars hne]

theorem unknown_category_tolerated_witness :
    handlePredict p0 (mkRequest [.obj recUnknownFields]) =
      .ok ([carUnknown].map (modelOutput p0)) ∧
    oneHot p0.modelKeyCategories carUnknown.model_key =
      List.replicate p0.modelKeyCategories.length 0 ∧
    (∀ cats v, v ∉ cats → oneHot cats v = List.replicate cats.length 0) :=
  unknown_category_tolerated p0 (mkRequest [.obj recUnknownFields]) [carUnknown]
    rfl (List.cons_ne_nil _ _) carUnknown (List.mem_cons_self _ _) (by decide)

/-- C4 (counterexample): for the empty `"input": []` request the service
does NOT exhibit one of the two claimed defined behaviors (200 with an
empty prediction list, or a 4xx validation error): validation accepts the
empty list, `pd.DataFrame([])` has no columns, and the ColumnTransformer
raises on the absent fitted columns, an unhandled server failure. -/
theorem empty_input_defined_behavior_counterexample :
    ¬ (handlePredict p0 (mkRequest []) = .ok [] ∨
       ∃ es, handlePredict p0 (mkRequest []) = .unprocessable es) := by
  have h : handlePredict p0 (mkRequest []) = .serverError := rfl
  rintro (h2 | ⟨es, h2⟩) <;> rw [h] at h2 <;> exact HttpResponse.noConfusion h2

/-- C4 (amended): for the empty-input request, under every loaded model the
validation layer accepts the empty batch and the scoring invocation fails
on the column-less empty DataFrame, so the service answers with an
unhandled 500 server error. -/
theorem empty_input_server_error (p : ModelParams) :
    handlePredict p (mkRequest []) = .serverError := rfl

/-- C5 (counterexample): a record whose float field `mileage` holds the
JSON string "7" is NOT rejected: pydantic's lax coercion silently accepts
it as the number 7, and validation succeeds. -/
theorem string_seven_not_rejected_counterexample :
    validateRecord (.obj rec7Fields) = .ok car0 ∧
    ¬ ∃ es, validateRecord (.obj rec7Fields) = .error es := by
  have h1 : validateRecord (.obj rec7Fields) = .ok car0 := rfl
  refine ⟨h1, ?_⟩
  rintro ⟨es, h2⟩
  rw [h1] at h2
  exact Except.noConfusion h2

/-- C5 (amended): a float field supplied as the JSON string "7" is silently
coerced to the number 7 by the validator (pydantic lax string-to-float
coercion); such a request is accepted, not rejected. -/
theorem string_seven_coerced (fs : List (String × Json)) (key : String)
    (h : objGet fs key = some (.str "7")) :
    validateFloatField fs key = .ok 7 := by
  have hp : coerceFloat (.str "7") = some 7 := by decide
  simp [validateFloatField, validateField, h, hp]

theorem string_seven_coerced_witness :
    validateFloatField rec7Fields "mileage" = .ok 7 :=
  string_seven_coerced rec7Fields "mileage" rfl

/-- C6: the DataFrame assembled from any non-empty validated batch has one
row per record in input order, and exactly the 13 schema columns with the
training-time identifiers, order, and per-column primitive types. -/
theorem batch_shape_matches_training (cars : List CarFeatures) (hne : cars ≠ []) :
    (pdDataFrame (cars.map carFeaturesDict)).columns = trainingColumns ∧
    (pdDataFrame (cars.map carFeaturesDict)).rows = cars.map carFeaturesDict ∧
    (pdDataFrame (cars.map carFeaturesDict)).rows.length = cars.length ∧
    (∀ row ∈ (pdDataFrame (cars.map carFeaturesDict)).rows, ∀ k ∈ trainingColumns,
      ∃ v, rowGet row k = some v ∧ cellType v = trainingColumnType k) := by
  refine ⟨dictKeysUnion_dicts cars hne, rfl, by simp [pdDataFrame], ?_⟩
  intro row hrow k hk
  obtain ⟨c, _, rfl⟩ := List.mem_map.mp hrow
  simp only [trainingColumns, requiredFieldNames, List.mem_cons, List.not_mem_nil,
    or_false] at hk
  rcases hk with rfl | rfl | rfl | rfl | rfl | rfl | rfl | rfl | rfl | rfl | rfl | rfl | rfl <;>
    exact ⟨_, rfl, rfl⟩

theorem batch_shape_matches_training_witness :
    (pdDataFrame ([car0].map carFeaturesDict)).columns = trainingColumns ∧
    (pdDataFrame ([car0].map carFeaturesDict)).rows = [car0].map carFeaturesDict ∧
    (pdDataFrame ([car0].map carFeaturesDict)).rows.length = [car0].length ∧
    (∀ row ∈ (pdDataFrame ([car0].map carFeaturesDict)).rows, ∀ k ∈ trainingColumns,
      ∃ v, rowGet row k = some v ∧ cellType v = trainingColumnType k) :=
  batch_shape_matches_training [car0] (List.cons_ne_nil _ _)

/-- C7: submitting the identical request twice against the same loaded
artifact yields identical responses: the second run starts from the state
left by the first, and the pipeline is a deterministic pure function of the
artifact and the request. -/
theorem predict_idempotent (a : ModelParams) (body : Json) :
    (step (loadService a) body).1 = (step ((step (loadService a) body).2) body).1 := rfl

/-- C8: a request that fails validation is reported immediately as a
validation error and is never passed into the scoring step: the response is
the validation error and is independent of the scoring function. -/
theorem invalid_request_never_scored (body : Json) (es : List FieldError)
    (h : validateInputData body = .error es)
    (score score2 : DataFrame → Except ScoringError (List ℚ)) :
    handlePredictWith score body = .unprocessable es ∧
    handlePredictWith score body = handlePredictWith score2 body := by
  constructor <;> simp [handlePredictWith, h]

theorem invalid_request_never_scored_witness :
    handlePredictWith (fun _ => .ok []) (.obj []) =
      .unprocessable [⟨"input", .missing⟩] ∧
    handlePredictWith (fun _ => .ok []) (.obj []) =
      handlePredictWith (fun _ => .error .badCell) (.obj []) :=
  invalid_request_never_scored (.obj []) [⟨"input", .missing⟩] rfl
    (fun _ => .ok []) (fun _ => .error .badCell)

/-- C9: the artifact is loaded once at process start and no request
mutates it: after any sequence of requests the process state is exactly the
initially loaded state, and every response is computed against that same
artifact. -/
theorem model_loaded_once_immutable (a : ModelParams) (requests : List Json) :
    serveAll a requests = (requests.map (handlePredict a), loadService a) := by
  rw [serveAll]
  induction requests with
  | nil => rfl
  | cons r rs ih => simp only [runRequests, step, ih]; rfl

/-- C10: a record carrying all 13 required fields plus extra, unrecognised
fields validates exactly like the same record with the extras removed, and
the returned predictions are identical. -/
theorem extra_fields_ignored (p : ModelParams) (items : List Json) :
    handlePredict p (mkRequest (items.map stripExtras)) =
      handlePredict p (mkRequest items) ∧
    ∀ j, validateRecord (stripExtras j) = validateRecord j := by
  refine ⟨?_, validateRecord_stripExtras⟩
  simp only [handlePredict, handlePredictWith, validateInputData_mkRequest,
    validateRecords_stripExtras]

end Getaround
